import Mathlib

/-
Verification of the version/flag resolution engine of the `acceptable`
library (src/acceptable/__init__.py, the module installed by setup.py).

The embedding models:
  * `_check_version_and_flag_types` (lines 193-209),
  * `EndpointMap.add_view` / `EndpointMap.get_view` (lines 136-190),
  * `parse_accept_headers` (lines 112-133).

Python dictionaries are modelled as association lists in insertion order
(first occurrence of a key wins on lookup; updating an existing key keeps
its position; inserting a fresh key appends at the end), exactly the
observable behaviour of a Python dict.  Python strings are modelled as
Lean strings compared lexicographically by code point, which is Python's
string ordering; `str.isdecimal` and the regex class matching a digit are
modelled over ASCII digits (the Unicode-only decimal forms are irrelevant
to every claim).  Raised exceptions are modelled with `Except`.
-/

namespace Acceptable

/-- Python runtime values that can reach `_check_version_and_flag_types` as
the `version` or `flag` argument: strings, `None`, booleans, the
`EndpointMap.DefaultView` sentinel (an `object()` instance), or any other
object carrying the name of its type. -/
inductive PyVal where
  | str : String → PyVal
  | nonePy : PyVal
  | boolVal : Bool → PyVal
  | defaultView : PyVal
  | obj : String → PyVal
deriving DecidableEq

/-- Python exceptions raised by the modelled code: `TypeError`,
`ValueError` and `IndexError`, each with its message. -/
inductive PyErr where
  | typeError : String → PyErr
  | valueError : String → PyErr
  | indexError : String → PyErr
deriving DecidableEq

/-- `type(x).__name__` for the modelled values (used in error messages). -/
def typeName : PyVal → String
  | PyVal.str _ => "str"
  | PyVal.nonePy => "NoneType"
  | PyVal.boolVal _ => "bool"
  | PyVal.defaultView => "object"
  | PyVal.obj t => t

/-- `isinstance(flag, (str, type(None)))`. -/
def isStrOrNone : PyVal → Bool
  | PyVal.str _ => true
  | PyVal.nonePy => true
  | _ => false

/-- Lookup in a Python dict modelled as an association list:
first entry with the requested key. -/
def dictGet {κ β : Type} [DecidableEq κ] (k : κ) : List (κ × β) → Option β
  | [] => Option.none
  | (k0, v) :: rest => if k0 = k then some v else dictGet k rest

/-- `d[k] = v` on a Python dict: an existing key keeps its position and
gets the new value, a fresh key is appended at the end. -/
def dictSet {κ β : Type} [DecidableEq κ] (d : List (κ × β)) (k : κ) (v : β) :
    List (κ × β) :=
  match d with
  | [] => [(k, v)]
  | (k0, v0) :: rest => if k0 = k then (k, v) :: rest else (k0, v0) :: dictSet rest k v

/-- Python `version.split('.')` on the character list of the string
(e.g. `"1.0.0" -> ["1","0","0"]`, `"" -> [""]`, `"1." -> ["1",""]`). -/
def splitDot : List Char → List (List Char)
  | [] => [[]]
  | c :: rest =>
    if c = '.' then [] :: splitDot rest
    else
      match splitDot rest with
      | h :: t => (c :: h) :: t
      | [] => [[c]]

/-- Python `str.isdecimal` on a component: non-empty and all decimal
digits (modelled over ASCII digits). -/
def isdecimalL (cs : List Char) : Bool :=
  !cs.isEmpty && cs.all Char.isDigit

/-- Python string comparison `s < t`: lexicographic by code point, a
proper strict-prefix string being smaller. -/
def lexLt : List Char → List Char → Bool
  | [], [] => false
  | [], _ :: _ => true
  | _ :: _, [] => false
  | a :: as, b :: bs => if a < b then true else if b < a then false else lexLt as bs

/-- Model of `_check_version_and_flag_types(version, flag)`
(src/acceptable/__init__.py lines 193-209): flag must be a string or
None; a version other than the DefaultView sentinel must be a string that
splits on a dot into exactly a decimal major and minor component. -/
def check_version_and_flag_types (version flag : PyVal) : Except PyErr Unit :=
  if isStrOrNone flag = false then
    Except.error (PyErr.typeError ("Flag must be a string or None, not " ++ typeName flag))
  else if version = PyVal.defaultView then
    Except.ok ()
  else
    match version with
    | PyVal.str s =>
      match splitDot s.data with
      | [major, minor] =>
        if isdecimalL major = false then
          Except.error (PyErr.valueError "Major version number is not an integer.")
        else if isdecimalL minor = false then
          Except.error (PyErr.valueError "Minor version number is not an integer.")
        else Except.ok ()
      | _ => Except.error (PyErr.valueError "Version must be in the format <major>.<minor>")
    | _ =>
      Except.error (PyErr.typeError ("Version must be a string, not " ++ typeName version))

/-- A version string that passes the format part of the check: exactly
two dot-separated decimal components. -/
def validVersion (s : String) : Bool :=
  match splitDot s.data with
  | [major, minor] => isdecimalL major && isdecimalL minor
  | _ => false

/-- A `version` argument the check accepts (given an acceptable flag):
the DefaultView sentinel or a well-formed version string. -/
def validArg : PyVal → Bool
  | PyVal.defaultView => true
  | PyVal.str s => validVersion s
  | _ => false

/-- `isinstance(version, str)` or the DefaultView sentinel. -/
def isStrOrDefault : PyVal → Bool
  | PyVal.str _ => true
  | PyVal.defaultView => true
  | _ => false

/-- One flag bucket of `EndpointMap._map`: the inner Python dict mapping
version strings to views, in insertion order. -/
abbrev Bucket (α : Type) : Type := List (String × α)

/-- `EndpointMap`: the two-level mapping `flag -> (version -> view)`.
The flag key is `Option String` (`Option.none` is Python's `None`, the
"no flag" bucket).  Version keys are the version strings; registering the
DefaultView sentinel itself as a version key (which the Python type check
would also let through) is outside this model. -/
structure EndpointMap (α : Type) where
  map : List (Option String × Bucket α)

/-- The string content of a version argument; only applied after the type
check has established the argument is a string. -/
def PyVal.strVal : PyVal → String
  | PyVal.str s => s
  | _ => ""

/-- The dictionary key a flag argument denotes (`None` or the string). -/
def pyFlagKey : PyVal → Option String
  | PyVal.str f => some f
  | _ => Option.none

/-- Embedding of a flag key back into a Python value. -/
def pyOfFlag : Option String → PyVal
  | Option.none => PyVal.nonePy
  | some f => PyVal.str f

/-- `self._map.get(flag, {})`. -/
def bucketOf {α : Type} (m : EndpointMap α) (flag : Option String) : Bucket α :=
  (dictGet flag m.map).getD []

/-- `versionmap.keys()` in insertion order. -/
def bucketKeys {α : Type} (versionmap : Bucket α) : List String :=
  versionmap.map Prod.fst

/-- Insert a string into a list already sorted in descending Python
string order. -/
def insertDesc (s : String) : List String → List String
  | [] => [s]
  | t :: ts => if lexLt t.data s.data then s :: t :: ts else t :: insertDesc s ts

/-- `sorted(keys, reverse=True)`: the keys in descending Python string
order (insertion sort; dict keys are unique, so any sort agrees). -/
def sortedDesc (l : List String) : List String :=
  List.foldr insertDesc [] l

/-- The version lookup of `get_view` inside one flag bucket
(src/acceptable/__init__.py lines 176-183): the exact match
`if version in versionmap: return versionmap[version]`, otherwise the
scan over `sorted(versionmap.keys(), reverse=True)` returning the first
key that compares `< version` as a Python string. -/
def lookup_in_bucket {α : Type} (versionmap : Bucket α) (version : String) : Option α :=
  match dictGet version versionmap with
  | some view => some view
  | Option.none =>
    match (sortedDesc (bucketKeys versionmap)).find?
        (fun available_version => lexLt available_version.data version.data) with
    | some available_version => dictGet available_version versionmap
    | Option.none => Option.none

/-- Model of `EndpointMap.get_view(version, flag)`
(src/acceptable/__init__.py lines 168-190).  The type/format check runs
first; the DefaultView branch takes `sorted(versionmap.keys(),
reverse=True)[0]`, raising `IndexError` on an empty bucket; otherwise the
exact-match/closest-below lookup runs in the flag's bucket; on failure
with a flag present, the code calls `self.get_view(version, flag=None)`.
That recursive call re-runs the (passing) check with the same non-default
string version, so its effect is exactly the in-bucket lookup on the
no-flag bucket followed by the final `return None`, inlined here. -/
def get_view {α : Type} (m : EndpointMap α) (version : PyVal) (flag : PyVal) :
    Except PyErr (Option α) :=
  match check_version_and_flag_types version flag with
  | Except.error e => Except.error e
  | Except.ok _ =>
    let versionmap := bucketOf m (pyFlagKey flag)
    if version = PyVal.defaultView then
      match sortedDesc (bucketKeys versionmap) with
      | [] => Except.error (PyErr.indexError "list index out of range")
      | latest_version :: _ => Except.ok (dictGet latest_version versionmap)
    else
      match lookup_in_bucket versionmap (PyVal.strVal version) with
      | some view => Except.ok (some view)
      | Option.none =>
        if flag ≠ PyVal.nonePy then
          Except.ok (lookup_in_bucket (bucketOf m Option.none) (PyVal.strVal version))
        else
          Except.ok Option.none

/-- Model of `EndpointMap.add_view(version, flag, view)`
(src/acceptable/__init__.py lines 160-166): after the check, either
create the flag bucket as `{version: view}` or set `version` in the
existing bucket.  Registering the DefaultView sentinel as the version is
left unmodelled (`.ok` without effect); no claim exercises it. -/
def add_view {α : Type} (m : EndpointMap α) (version flag : PyVal) (view : α) :
    Except PyErr (EndpointMap α) :=
  match check_version_and_flag_types version flag with
  | Except.error e => Except.error e
  | Except.ok _ =>
    match version with
    | PyVal.str s =>
      match dictGet (pyFlagKey flag) m.map with
      | Option.none => Except.ok ⟨dictSet m.map (pyFlagKey flag) [(s, view)]⟩
      | some versionmap => Except.ok ⟨dictSet m.map (pyFlagKey flag) (dictSet versionmap s view)⟩
    | _ => Except.ok m

/-- Match a literal character sequence at the front of the input,
returning the remainder on success. -/
def dropLiteral : List Char → List Char → Option (List Char)
  | [], cs => some cs
  | _ :: _, [] => Option.none
  | l :: ls, c :: cs => if c = l then dropLiteral ls cs else Option.none

/-- Model of `re.match(r'application/vnd.%s.(\d+\.\d+)(\+?.*)' % vendor,
accept_value)` (src/acceptable/__init__.py lines 125-128), returning the
two capture groups.  The two unescaped dots of the pattern match any
single character except a newline; the vendor string is interpolated
verbatim and modelled as matched literally (it coincides with the regex
for the alphanumeric vendor identifiers the service layer enforces);
`\d+` is a maximal non-empty digit run (maximality cannot be backtracked
past the literal dot, since any shorter run is followed by a digit);
`\+?` greedily takes one plus sign and `.*` greedily extends to the end
of the line. -/
def matchVnd (vendor : List Char) (cs : List Char) : Option (String × String) :=
  match dropLiteral "application/vnd".data cs with
  | Option.none => Option.none
  | some rest0 =>
    match rest0 with
    | [] => Option.none
    | c1 :: rest1 =>
      if c1 = '\n' then Option.none
      else
        match dropLiteral vendor rest1 with
        | Option.none => Option.none
        | some rest2 =>
          match rest2 with
          | [] => Option.none
          | c2 :: rest3 =>
            if c2 = '\n' then Option.none
            else
              let major := rest3.takeWhile Char.isDigit
              let rest4 := rest3.dropWhile Char.isDigit
              if major.isEmpty then Option.none
              else
                match rest4 with
                | '.' :: rest5 =>
                  let minor := rest5.takeWhile Char.isDigit
                  let rest6 := rest5.dropWhile Char.isDigit
                  if minor.isEmpty then Option.none
                  else
                    let tags : List Char :=
                      match rest6 with
                      | '+' :: rest7 => '+' :: rest7.takeWhile (fun c => c != '\n')
                      | _ => rest6.takeWhile (fun c => c != '\n')
                    some (String.mk (major ++ '.' :: minor), String.mk tags)
                | _ => Option.none

/-- Python `tags.lstrip('+')`: remove every leading plus sign. -/
def lstripPlus (t : String) : String :=
  String.mk (t.data.dropWhile (fun c => c == '+'))

/-- Model of `parse_accept_headers(vendor, header_values)`
(src/acceptable/__init__.py lines 112-133): scan the header values in
order; on the first regex match return the version group and the flag
group (`None` when the group is empty, its leading plus signs stripped
otherwise); `(None, None)` when nothing matches. -/
def parse_accept_headers (vendor : String) : List String → Option String × Option String
  | [] => (Option.none, Option.none)
  | accept_value :: rest =>
    match matchVnd vendor.data accept_value.data with
    | some (version, tags) =>
      (some version, if tags = "" then Option.none else some (lstripPlus tags))
    | Option.none => parse_accept_headers vendor rest

/-- Numeric value of a decimal digit string (spec-side helper). -/
def natOfDigits (cs : List Char) : Nat :=
  cs.foldl (fun n c => 10 * n + (c.toNat - '0'.toNat)) 0

/-- The `(major, minor)` integer pair of a version string, the reading
the specification's numeric comparison rule is stated in. -/
def specNumPair (s : String) : Nat × Nat :=
  match splitDot s.data with
  | [major, minor] => (natOfDigits major, natOfDigits minor)
  | _ => (0, 0)

/-- The specification's numeric version order: compare major components
numerically, then minor components numerically. -/
def specNumLt (a b : Nat × Nat) : Bool :=
  decide (a.1 < b.1) || (decide (a.1 = b.1) && decide (a.2 < b.2))

/-! ## Helper lemmas -/

theorem pyFlagKey_pyOfFlag (f : Option String) : pyFlagKey (pyOfFlag f) = f := by
  cases f <;> rfl

theorem isStrOrNone_pyOfFlag (f : Option String) : isStrOrNone (pyOfFlag f) = true := by
  cases f <;> rfl

theorem check_ok_of_valid {s : String} {flag : PyVal}
    (hf : isStrOrNone flag = true) (hs : validVersion s = true) :
    check_version_and_flag_types (PyVal.str s) flag = Except.ok () := by
  unfold validVersion at hs
  unfold check_version_and_flag_types
  rw [if_neg (by simp [hf]), if_neg (by simp)]
  rcases hsd : splitDot s.data with _ | ⟨major, _ | ⟨minor, _ | ⟨c, t⟩⟩⟩ <;>
      rw [hsd] at hs
  · simp at hs
  · simp at hs
  · rw [Bool.and_eq_true] at hs
    simp [hsd, hs.1, hs.2]
  · simp at hs

theorem dictGet_dictSet_self {κ β : Type} [DecidableEq κ] (d : List (κ × β)) (k : κ) (v : β) :
    dictGet k (dictSet d k v) = some v := by
  induction d with
  | nil => simp [dictGet, dictSet]
  | cons p rest ih =>
    obtain ⟨k0, v0⟩ := p
    by_cases h : k0 = k <;> simp [dictGet, dictSet, h, ih]

theorem dictGet_dictSet_ne {κ β : Type} [DecidableEq κ] (d : List (κ × β)) (k k' : κ) (v : β)
    (h : k' ≠ k) : dictGet k' (dictSet d k v) = dictGet k' d := by
  have hk : k ≠ k' := Ne.symm h
  induction d with
  | nil => simp [dictGet, dictSet, hk]
  | cons p rest ih =>
    obtain ⟨k0, v0⟩ := p
    unfold dictSet
    by_cases h0 : k0 = k
    · subst h0
      simp [dictGet, hk]
    · rw [if_neg h0]
      unfold dictGet
      by_cases h1 : k0 = k' <;> simp [h1, ih]

/-- Shared core of C5 and C10: with a valid version string registered
exactly at the requested key, `get_view` returns its view. -/
theorem get_view_exact {α : Type} (m : EndpointMap α) (s : String) (f : Option String)
    (view : α) (hs : validVersion s = true)
    (hb : dictGet s (bucketOf m f) = some view) :
    get_view m (PyVal.str s) (pyOfFlag f) = Except.ok (some view) := by
  unfold get_view
  rw [check_ok_of_valid (isStrOrNone_pyOfFlag f) hs]
  rw [pyFlagKey_pyOfFlag]
  rw [if_neg (by simp)]
  simp only [lookup_in_bucket, PyVal.strVal, hb]

/-! ## Claims -/

/-- C1: the claim says that with no exact match, `get_view` returns the
view of the numerically largest registered version at most the request
(so registering 1.9 and requesting 1.10 must yield the 1.9 view).  The
code compares version strings lexically: at this input it finds no
registered version below "1.10" (because "1.9" > "1.10" as strings) and
returns None, although 1.9 <= 1.10 numerically.  The specification's
design notes call the string comparison a latent defect, so the claim is
right and the code is wrong. -/
theorem C1_closest_below_uses_string_order :
    get_view (EndpointMap.mk [(Option.none, [("1.9", 0)])]) (PyVal.str "1.10") PyVal.nonePy
      = Except.ok Option.none
    ∧ specNumLt (specNumPair "1.9") (specNumPair "1.10") = true :=
  ⟨rfl, rfl⟩

/-- C2: the claim says `get_view` never returns a view registered at a
numerically greater version than the request.  With only 1.10 registered
and 1.9 requested, the code's lexical scan accepts "1.10" < "1.9" and
returns the 1.10 view — a numerically newer contract than the client
asked for — instead of the None the claim requires. -/
theorem C2_forward_serve_on_string_order :
    get_view (EndpointMap.mk [(Option.none, [("1.10", 0)])]) (PyVal.str "1.9") PyVal.nonePy
      = Except.ok (some 0)
    ∧ specNumLt (specNumPair "1.9") (specNumPair "1.10") = true :=
  ⟨rfl, rfl⟩

/-- C3: the claim says requesting the DefaultView marker returns the view
of the numerically highest registered version (with {1.9, 1.10} that is
the 1.10 view).  The code takes `sorted(versionmap.keys(),
reverse=True)[0]`, the lexical maximum: it returns the 1.9 view (bound
here to 0) instead of the 1.10 view (bound to 1). -/
theorem C3_default_view_lexical_max :
    get_view (EndpointMap.mk [(Option.none, [("1.9", 0), ("1.10", 1)])])
        PyVal.defaultView PyVal.nonePy
      = Except.ok (some 0)
    ∧ specNumLt (specNumPair "1.9") (specNumPair "1.10") = true :=
  ⟨rfl, rfl⟩

/-- C4: the claim says `get_view` never raises on type-valid input and
that a DefaultView request against an empty or unregistered flag bucket
falls through to the no-flag fallback.  The code indexes
`sorted(versionmap.keys(), reverse=True)[0]` on the empty bucket of the
unregistered flag "f" and raises IndexError, never reaching the fallback
that could have served the registered unflagged view. -/
theorem C4_default_view_empty_bucket_raises :
    get_view (EndpointMap.mk [(Option.none, [("1.0", 5)])]) PyVal.defaultView (PyVal.str "f")
      = Except.error (PyErr.indexError "list index out of range") :=
  rfl

/-- C5: a view registered at exactly the requested (version, flag) pair
is returned by `get_view`, whatever else is registered. -/
theorem C5_exact_match_wins {α : Type} (m : EndpointMap α) (s : String) (f : Option String)
    (view : α) (hs : validVersion s = true)
    (hb : dictGet s (bucketOf m f) = some view) :
    get_view m (PyVal.str s) (pyOfFlag f) = Except.ok (some view) :=
  get_view_exact m s f view hs hb

/-- C5 witness: with the 1.3 view registered both under flag "beta" and
unflagged, requesting (1.3, "beta") returns the flagged view. -/
theorem C5_exact_match_wins_witness :
    validVersion "1.3" = true
    ∧ dictGet "1.3"
        (bucketOf (EndpointMap.mk [(some "beta", [("1.3", 4)]), (Option.none, [("1.3", 9)])])
          (some "beta")) = some 4
    ∧ get_view (EndpointMap.mk [(some "beta", [("1.3", 4)]), (Option.none, [("1.3", 9)])])
        (PyVal.str "1.3") (PyVal.str "beta") = Except.ok (some 4) :=
  ⟨rfl, rfl,
    C5_exact_match_wins (EndpointMap.mk [(some "beta", [("1.3", 4)]), (Option.none, [("1.3", 9)])])
      "1.3" (some "beta") 4 rfl rfl⟩

/-- C6: when the resolution inside the requested flag's bucket finds no
view (no exact match and no key below the request), `get_view` with that
flag gives exactly the result of `get_view` with the flag cleared — the
whole resolution is retried once in the no-flag bucket. -/
theorem C6_flag_fallback_retries_without_flag {α : Type} (m : EndpointMap α) (s f : String)
    (hs : validVersion s = true)
    (hmiss : lookup_in_bucket (bucketOf m (some f)) s = Option.none) :
    get_view m (PyVal.str s) (PyVal.str f) = get_view m (PyVal.str s) PyVal.nonePy := by
  have hc1 : check_version_and_flag_types (PyVal.str s) (PyVal.str f) = Except.ok () :=
    check_ok_of_valid rfl hs
  have hc2 : check_version_and_flag_types (PyVal.str s) PyVal.nonePy = Except.ok () :=
    check_ok_of_valid rfl hs
  unfold get_view
  rw [hc1, hc2]
  simp only [pyFlagKey, PyVal.strVal, hmiss]
  cases h : lookup_in_bucket (bucketOf m Option.none) s <;> simp [h]

/-- C6 witness: only an unflagged view exists at 1.0; requesting
(1.0, "flag") degrades to the unflagged resolution and returns it. -/
theorem C6_flag_fallback_retries_without_flag_witness :
    validVersion "1.0" = true
    ∧ lookup_in_bucket (bucketOf (EndpointMap.mk [(Option.none, [("1.0", 7)])]) (some "flag"))
        "1.0" = Option.none
    ∧ get_view (EndpointMap.mk [(Option.none, [("1.0", 7)])]) (PyVal.str "1.0")
        (PyVal.str "flag")
      = get_view (EndpointMap.mk [(Option.none, [("1.0", 7)])]) (PyVal.str "1.0") PyVal.nonePy
    ∧ get_view (EndpointMap.mk [(Option.none, [("1.0", 7)])]) (PyVal.str "1.0")
        (PyVal.str "flag") = Except.ok (some 7) :=
  ⟨rfl, rfl,
    C6_flag_fallback_retries_without_flag (EndpointMap.mk [(Option.none, [("1.0", 7)])])
      "1.0" "flag" rfl rfl,
    (C6_flag_fallback_retries_without_flag (EndpointMap.mk [(Option.none, [("1.0", 7)])])
      "1.0" "flag" rfl rfl).trans rfl⟩

/-- C7: the shared validator raises a type error naming the offending
type for a non-string non-None flag and for a version that is neither a
string nor the DefaultView sentinel; a version string without exactly two
dot-separated components gets the component-count format error; a
non-decimal component gets the error naming the major resp. minor
component; valid inputs raise nothing; and both `add_view` and
`get_view` surface exactly the validator's error before any other
effect. -/
theorem C7_validation_behaviour (m : EndpointMap Nat) (version flag : PyVal) (view : Nat) :
    (isStrOrNone flag = false →
      check_version_and_flag_types version flag
        = Except.error (PyErr.typeError ("Flag must be a string or None, not " ++ typeName flag)))
    ∧ (isStrOrNone flag = true → isStrOrDefault version = false →
      check_version_and_flag_types version flag
        = Except.error (PyErr.typeError ("Version must be a string, not " ++ typeName version)))
    ∧ (∀ s, isStrOrNone flag = true → version = PyVal.str s →
        (splitDot s.data).length ≠ 2 →
      check_version_and_flag_types version flag
        = Except.error (PyErr.valueError "Version must be in the format <major>.<minor>"))
    ∧ (∀ s major minor, isStrOrNone flag = true → version = PyVal.str s →
        splitDot s.data = [major, minor] → isdecimalL major = false →
      check_version_and_flag_types version flag
        = Except.error (PyErr.valueError "Major version number is not an integer."))
    ∧ (∀ s major minor, isStrOrNone flag = true → version = PyVal.str s →
        splitDot s.data = [major, minor] → isdecimalL major = true → isdecimalL minor = false →
      check_version_and_flag_types version flag
        = Except.error (PyErr.valueError "Minor version number is not an integer."))
    ∧ (isStrOrNone flag = true → validArg version = true →
      check_version_and_flag_types version flag = Except.ok ())
    ∧ (∀ e, check_version_and_flag_types version flag = Except.error e →
        add_view m version flag view = Except.error e
        ∧ get_view m version flag = Except.error e) := by
  refine ⟨?_, ?_, ?_, ?_, ?_, ?_, ?_⟩
  · intro h
    unfold check_version_and_flag_types
    rw [if_pos h]
  · intro h1 h2
    cases version <;> simp_all [check_version_and_flag_types, isStrOrDefault, typeName]
  · intro s h1 hv hlen
    subst hv
    unfold check_version_and_flag_types
    rw [if_neg (by simp [h1]), if_neg (by simp)]
    rcases hsd : splitDot s.data with _ | ⟨a, _ | ⟨b, _ | ⟨c, t⟩⟩⟩
    · simp [hsd]
    · simp [hsd]
    · rw [hsd] at hlen
      simp at hlen
    · simp [hsd]
  · intro s a b h1 hv hsd hmaj
    subst hv
    unfold check_version_and_flag_types
    rw [if_neg (by simp [h1]), if_neg (by simp)]
    simp [hsd, hmaj]
  · intro s a b h1 hv hsd hmaj hmin
    subst hv
    unfold check_version_and_flag_types
    rw [if_neg (by simp [h1]), if_neg (by simp)]
    simp [hsd, hmaj, hmin]
  · intro h1 h2
    cases version with
    | str s => exact check_ok_of_valid h1 h2
    | nonePy => simp [validArg] at h2
    | boolVal b => simp [validArg] at h2
    | defaultView => simp [check_version_and_flag_types, h1]
    | obj t => simp [validArg] at h2
  · intro e he
    refine ⟨?_, ?_⟩
    · unfold add_view
      rw [he]
    · unfold get_view
      rw [he]

/-- C7 witness: the validator at the specification's concrete inputs —
a bool version, "1.0.0", "a.2" and the valid "1.0" — and `get_view`
passing the bool type error through unchanged. -/
theorem C7_validation_behaviour_witness :
    check_version_and_flag_types (PyVal.boolVal true) PyVal.nonePy
      = Except.error (PyErr.typeError "Version must be a string, not bool")
    ∧ check_version_and_flag_types (PyVal.str "1.0.0") PyVal.nonePy
      = Except.error (PyErr.valueError "Version must be in the format <major>.<minor>")
    ∧ check_version_and_flag_types (PyVal.str "a.2") PyVal.nonePy
      = Except.error (PyErr.valueError "Major version number is not an integer.")
    ∧ check_version_and_flag_types (PyVal.str "1.0") PyVal.nonePy = Except.ok ()
    ∧ get_view (EndpointMap.mk ([] : List (Option String × Bucket Nat)))
        (PyVal.boolVal true) PyVal.nonePy
      = Except.error (PyErr.typeError "Version must be a string, not bool") := by
  have A := C7_validation_behaviour (EndpointMap.mk []) (PyVal.boolVal true) PyVal.nonePy 0
  have B := C7_validation_behaviour (EndpointMap.mk []) (PyVal.str "1.0.0") PyVal.nonePy 0
  have C := C7_validation_behaviour (EndpointMap.mk []) (PyVal.str "a.2") PyVal.nonePy 0
  have D := C7_validation_behaviour (EndpointMap.mk []) (PyVal.str "1.0") PyVal.nonePy 0
  refine ⟨?_, ?_, ?_, ?_, ?_⟩
  · exact A.2.1 rfl rfl
  · exact B.2.2.1 "1.0.0" rfl rfl (by decide)
  · exact C.2.2.2.1 "a.2" ['a'] ['2'] rfl rfl rfl rfl
  · exact D.2.2.2.2.2.1 rfl rfl
  · exact (A.2.2.2.2.2.2 (PyErr.typeError "Version must be a string, not bool")
      (A.2.1 rfl rfl)).2

/-- C8: `parse_accept_headers` returns the pair extracted from the first
header value the pattern matches, skipping earlier non-matching values,
and `(None, None)` when nothing matches. -/
theorem C8_parser_first_match (vendor : String) (header_values : List String) :
    parse_accept_headers vendor header_values
      = match header_values.findSome? (fun h => matchVnd vendor.data h.data) with
        | Option.none => (Option.none, Option.none)
        | some (version, tags) =>
          (some version, if tags = "" then Option.none else some (lstripPlus tags)) := by
  induction header_values with
  | nil => rfl
  | cons h t ih =>
    unfold parse_accept_headers
    rw [List.findSome?_cons]
    cases hm : matchVnd vendor.data h.data with
    | none => simpa using ih
    | some p =>
      obtain ⟨v, tg⟩ := p
      simp

/-- C9 counterexample: the claim says a flag suffix that is empty after
stripping the plus sign is returned as None and never as the empty
string; but for a header ending in a bare plus the code tests emptiness
before stripping (`tags.lstrip('+') if tags else None`), so "+" is truthy
and is stripped to the empty string, which is returned as the flag. -/
theorem C9_bare_plus_flag_counterexample :
    parse_accept_headers "foo" ["application/vnd.foo.1.3+"] = (some "1.3", some "")
    ∧ (some "" : Option String) ≠ (Option.none : Option String) :=
  ⟨rfl, by simp⟩

/-- C9 amended: for the first matching header value, the flag suffix is
returned with all leading plus signs stripped and never begins with a
plus sign; a suffix that is empty before stripping is returned as None,
while a suffix consisting of a bare plus sign yields the empty-string
flag, not None. -/
theorem C9_flag_plus_stripping_amended (vendor accept_value : String) (rest : List String)
    (version tags : String)
    (hm : matchVnd vendor.data accept_value.data = some (version, tags)) :
    parse_accept_headers vendor (accept_value :: rest)
      = (some version, if tags = "" then Option.none else some (lstripPlus tags))
    ∧ (lstripPlus tags).data.head? ≠ some '+' := by
  constructor
  · unfold parse_accept_headers
    rw [hm]
  · show (tags.data.dropWhile (fun c => c == '+')).head? ≠ some '+'
    induction tags.data with
    | nil => simp
    | cons c cs ih =>
      by_cases hc : c = '+'
      · have hb : (c == '+') = true := by simp [hc]
        simpa [List.dropWhile, hb] using ih
      · have hb : (c == '+') = false := by simp [hc]
        simp [List.dropWhile, hb, hc]

/-- C9 amended witness: the bare-plus header again — the returned flag is
the empty string (not None) and carries no leading plus sign. -/
theorem C9_flag_plus_stripping_amended_witness :
    parse_accept_headers "foo" ["application/vnd.foo.1.3+"] = (some "1.3", some "")
    ∧ (lstripPlus "+").data.head? ≠ some '+' := by
  have h := C9_flag_plus_stripping_amended "foo" "application/vnd.foo.1.3+" [] "1.3" "+" rfl
  exact ⟨h.1, h.2⟩

/-- C10: registering a view at a valid (version, flag) key succeeds,
a subsequent `get_view` at that exact key returns the freshly registered
view (overwriting whatever was there), and every other (flag, version)
entry is untouched. -/
theorem C10_reregistration_overwrites {α : Type} (m : EndpointMap α) (s : String)
    (f : Option String) (view : α) (hs : validVersion s = true) :
    ∃ m2, add_view m (PyVal.str s) (pyOfFlag f) view = Except.ok m2
      ∧ get_view m2 (PyVal.str s) (pyOfFlag f) = Except.ok (some view)
      ∧ ∀ f2 s2, f2 ≠ f ∨ s2 ≠ s →
          dictGet s2 (bucketOf m2 f2) = dictGet s2 (bucketOf m f2) := by
  have hc : check_version_and_flag_types (PyVal.str s) (pyOfFlag f) = Except.ok () :=
    check_ok_of_valid (isStrOrNone_pyOfFlag f) hs
  cases hb : dictGet f m.map with
  | none =>
    refine ⟨⟨dictSet m.map f [(s, view)]⟩, ?_, ?_, ?_⟩
    · unfold add_view
      rw [hc]
      simp only [pyFlagKey_pyOfFlag, hb]
    · apply get_view_exact _ _ _ _ hs
      unfold bucketOf
      rw [dictGet_dictSet_self]
      simp [dictGet]
    · intro f2 s2 hne
      rcases hne with hf2 | hs2
      · unfold bucketOf
        rw [dictGet_dictSet_ne _ _ _ _ hf2]
      · by_cases hf2 : f2 = f
        · subst hf2
          unfold bucketOf
          rw [dictGet_dictSet_self, hb]
          simp [dictGet, Ne.symm hs2]
        · unfold bucketOf
          rw [dictGet_dictSet_ne _ _ _ _ hf2]
  | some vm =>
    refine ⟨⟨dictSet m.map f (dictSet vm s view)⟩, ?_, ?_, ?_⟩
    · unfold add_view
      rw [hc]
      simp only [pyFlagKey_pyOfFlag, hb]
    · apply get_view_exact _ _ _ _ hs
      unfold bucketOf
      rw [dictGet_dictSet_self]
      simp [dictGet_dictSet_self]
    · intro f2 s2 hne
      rcases hne with hf2 | hs2
      · unfold bucketOf
        rw [dictGet_dictSet_ne _ _ _ _ hf2]
      · by_cases hf2 : f2 = f
        · subst hf2
          unfold bucketOf
          rw [dictGet_dictSet_self, hb]
          simp [dictGet_dictSet_ne _ _ _ _ hs2]
        · unfold bucketOf
          rw [dictGet_dictSet_ne _ _ _ _ hf2]

/-- C10 witness: overwriting the unflagged 1.0 view (previously 1) with 2
makes `get_view("1.0")` return 2 and changes no other entry. -/
theorem C10_reregistration_overwrites_witness :
    ∃ m2,
      add_view (EndpointMap.mk [(Option.none, [("1.0", 1)])]) (PyVal.str "1.0") PyVal.nonePy 2
        = Except.ok m2
      ∧ get_view m2 (PyVal.str "1.0") PyVal.nonePy = Except.ok (some 2)
      ∧ ∀ f2 s2, f2 ≠ Option.none ∨ s2 ≠ "1.0" →
          dictGet s2 (bucketOf m2 f2)
            = dictGet s2 (bucketOf (EndpointMap.mk [(Option.none, [("1.0", 1)])]) f2) :=
  C10_reregistration_overwrites (EndpointMap.mk [(Option.none, [("1.0", 1)])]) "1.0"
    Option.none 2 rfl

end Acceptable
